import Mathlib

/-
Verification of the redis-glue abstraction layer (src/src/lib.rs).

The Rust code is a thin facade over the external redis crate. We give a
shallow embedding: the glue-layer types and functions (RedisConfig,
RedisClient, RedisConnection, Redis and their methods) are translated
from the source; the external collaborator (the redis crate and the
server it talks to) is modelled by explicit oracles (OpenOracle,
ConnOracle, a step function for command execution) and, for concrete
round-trip tests, by a key-value server model (kvStep) that follows
standard Redis SET/GET/PING semantics.

Shared Rc<RefCell<Connection>> cells are modelled by a World: a map from
cell ids to underlying connection/server states, with an allocation
counter. A RedisConnection handle holds the id of its cell; Rc::clone
becomes copying the id. A Rust panic (unwrap on Err) is modelled by the
PanicOr / Outcome error channels, distinct from a returned RedisResult
error.
-/

set_option autoImplicit false

namespace RedisGlue

/-- Errors of the external redis crate, abstracted to their kinds
(the glue layer never inspects them, it only propagates them). -/
inductive RedisError where
  | Transport
  | TypeErr
  | Protocol
  | Io
  deriving DecidableEq, Repr

/-- redis::RedisResult. -/
abbrev RedisResult (α : Type) := Except RedisError α

/-- redis::Value, the reply values of the wire protocol. Binary Data is
modelled as a String. -/
inductive Value where
  | Nil
  | IntVal (i : Int)
  | Data (s : String)
  | Bulk (vs : List Value)
  | Status (s : String)
  | Okay

/-- redis::Cmd: an opaque command descriptor, a name plus ordered args. -/
structure Cmd where
  name : String
  args : List String

/-- redis::cmd(name). -/
def cmd (name : String) : Cmd := ⟨name, []⟩

/-- Cmd::arg, appending arguments (the source calls .arg with a slice). -/
def Cmd.arg (c : Cmd) (xs : List String) : Cmd := ⟨c.name, c.args ++ xs⟩

/-- Result of a Rust function whose type has no error channel but whose
body can panic (unwrap): either a value or a process abort. -/
inductive PanicOr (α : Type) where
  | panicked
  | ok (a : α)

/-- Result of a Rust function returning RedisResult whose body can also
panic: panic, a returned error, or a value. -/
inductive Outcome (α : Type) where
  | panicked
  | err (e : RedisError)
  | ok (a : α)

/-- Client configuration (enum RedisConfig in lib.rs). -/
inductive RedisConfig where
  | Single (url : String)
  | Cluster (nodes : List String)

/-- redis::Client: wraps the target address (external collaborator). -/
structure Client where
  url : String

/-- redis::cluster::ClusterClient: wraps the node list. -/
structure ClusterClient where
  nodes : List String

/-- enum RedisClient in lib.rs. -/
inductive RedisClient where
  | Single (c : Client)
  | Cluster (c : ClusterClient)

/-- Behaviour of the external open calls redis::Client::open and
ClusterClient::open: none means success, some e the error they return. -/
structure OpenOracle where
  clientOpen : String → Option RedisError
  clusterOpen : List String → Option RedisError

/-- redis::Client::open, against an oracle deciding parse success. -/
def Client.open (oo : OpenOracle) (url : String) : RedisResult Client :=
  match oo.clientOpen url with
  | some e => .error e
  | none => .ok ⟨url⟩

/-- redis::cluster::ClusterClient::open. -/
def ClusterClient.open (oo : OpenOracle) (nodes : List String) :
    RedisResult ClusterClient :=
  match oo.clusterOpen nodes with
  | some e => .error e
  | none => .ok ⟨nodes⟩

/-- RedisConfig::connect (lib.rs lines 30 to 41). The Rust return type is
plain RedisClient; both arms call .unwrap() on the open result, so an
open failure is a panic, not a returned error. -/
def RedisConfig.connect (oo : OpenOracle) : RedisConfig → PanicOr RedisClient
  | .Single url =>
    match Client.open oo url with
    | .error _ => .panicked
    | .ok client => .ok (RedisClient.Single client)
  | .Cluster nodes =>
    match ClusterClient.open oo nodes with
    | .error _ => .panicked
    | .ok cluster_client => .ok (RedisClient.Cluster cluster_client)

/-- The heap of shared connection cells: Rc::new(RefCell::new(con))
allocates a fresh cell, Rc::clone copies the id. σ is the state of one
underlying connection (owned by the external library). -/
structure World (σ : Type) where
  next : Nat
  cells : Nat → σ

/-- Allocate a fresh cell holding s. -/
def World.alloc {σ : Type} (w : World σ) (s : σ) : Nat × World σ :=
  (w.next, ⟨w.next + 1, fun j => if j = w.next then s else w.cells j⟩)

/-- Write back the state of cell id. -/
def World.write {σ : Type} (w : World σ) (id : Nat) (s : σ) : World σ :=
  ⟨w.next, fun j => if j = id then s else w.cells j⟩

/-- enum RedisConnection in lib.rs: a handle holding a shared cell. -/
inductive RedisConnection where
  | Single (con : Nat)
  | Cluster (con : Nat)

/-- The cell id a handle references. -/
def RedisConnection.cell : RedisConnection → Nat
  | .Single con => con
  | .Cluster con => con

/-- RedisConnection::get_client (lib.rs lines 54 to 59): Rc::clone of the
shared cell, same variant. It takes no World, so it can neither allocate
a new connection nor mutate any state. -/
def RedisConnection.get_client : RedisConnection → RedisConnection
  | .Single con => .Single con
  | .Cluster con => .Cluster con

/-- Behaviour of the external library during one command execution on
one underlying connection: the reply (or error) and the possibly mutated
connection state. Covers query_async on a single connection and query on
a cluster connection. -/
abbrev Step (σ : Type) := σ → Cmd → RedisResult Value × σ

/-- RedisConnection::exec (lib.rs lines 62 to 67): dispatch on the
variant, borrow the shared cell mutably, run the library call on it and
return its result. The single arm awaits query_async, the cluster arm
calls query; both reduce to one library step on the cell state. -/
def RedisConnection.exec {σ : Type} (step : Step σ) (w : World σ)
    (conn : RedisConnection) (c : Cmd) : RedisResult Value × World σ :=
  match conn with
  | .Single con =>
    let (r, s) := step (w.cells con) c
    (r, w.write con s)
  | .Cluster con =>
    let (r, s) := step (w.cells con) c
    (r, w.write con s)

/-- RedisConnection::ping (lib.rs lines 69 to 76): exec PING, return
true exactly on an Ok Status reply equal to PONG; any other reply or any
error yields false. The return type Bool has no error channel. -/
def RedisConnection.ping {σ : Type} (step : Step σ) (w : World σ)
    (conn : RedisConnection) : Bool × World σ :=
  match conn.exec step w (cmd "PING") with
  | (.ok (.Status v), w1) => (v == "PONG", w1)
  | (_, w1) => (false, w1)

/-- FromRedisValue for String in the redis crate: utf8 Data or a Status
line decode, anything else is a type error. -/
def fromRedisString : Value → RedisResult String
  | .Data s => .ok s
  | .Status s => .ok s
  | _ => .error .TypeErr

/-- FromRedisValue for the unit type: every reply decodes to unit. -/
def fromRedisUnit : Value → RedisResult Unit := fun _ => .ok ()

/-- exec instantiated at T = String, as in the GET call of the tests. -/
def RedisConnection.execString {σ : Type} (step : Step σ) (w : World σ)
    (conn : RedisConnection) (c : Cmd) : RedisResult String × World σ :=
  match conn.exec step w c with
  | (.ok v, w1) => (fromRedisString v, w1)
  | (.error e, w1) => (.error e, w1)

/-- exec instantiated at T = unit, as in the SET call of the tests. -/
def RedisConnection.execUnit {σ : Type} (step : Step σ) (w : World σ)
    (conn : RedisConnection) (c : Cmd) : RedisResult Unit × World σ :=
  match conn.exec step w c with
  | (.ok v, w1) => (fromRedisUnit v, w1)
  | (.error e, w1) => (.error e, w1)

/-- Behaviour of the external calls that open the first connection from
a client: Client::get_async_connection and ClusterClient::get_connection.
The oracle yields the initial underlying connection state or an error. -/
structure ConnOracle (σ : Type) where
  getAsyncConnection : String → RedisResult σ
  getClusterConnection : List String → RedisResult σ

/-- struct Redis in lib.rs: the facade owning a client and a shared
connection. -/
structure Redis where
  _client : RedisClient
  connection : RedisConnection

/-- Redis::connect (lib.rs lines 111 to 124): run RedisConfig::connect
(which may panic), then open the first connection from the resulting
client, propagating its error with the question mark operator, and wrap
it in a fresh shared cell. -/
def Redis.connect {σ : Type} (oo : OpenOracle) (co : ConnOracle σ)
    (w : World σ) (redis : RedisConfig) :
    Outcome ((RedisClient × RedisConnection) × World σ) :=
  match redis.connect oo with
  | .panicked => .panicked
  | .ok rc =>
    match rc with
    | .Single c =>
      match co.getAsyncConnection c.url with
      | .error e => .err e
      | .ok con =>
        let (id, w1) := w.alloc con
        .ok ((RedisClient.Single c, RedisConnection.Single id), w1)
    | .Cluster c =>
      match co.getClusterConnection c.nodes with
      | .error e => .err e
      | .ok con =>
        let (id, w1) := w.alloc con
        .ok ((RedisClient.Cluster c, RedisConnection.Cluster id), w1)

/-- Redis::new (lib.rs lines 95 to 102): Self::connect with the question
mark operator, then store the pair in the facade. -/
def Redis.new {σ : Type} (oo : OpenOracle) (co : ConnOracle σ)
    (w : World σ) (redis : RedisConfig) : Outcome (Redis × World σ) :=
  match Redis.connect oo co w redis with
  | .panicked => .panicked
  | .err e => .err e
  | .ok ((c, connection), w1) => .ok (⟨c, connection⟩, w1)

/-- Redis::get_client (lib.rs lines 107 to 109). -/
def Redis.get_client (r : Redis) : RedisConnection :=
  r.connection.get_client

/-- Agreement of the client variant and the connection variant. -/
def variantsAgree : RedisClient → RedisConnection → Bool
  | .Single _, .Single _ => true
  | .Cluster _, .Cluster _ => true
  | _, _ => false

/-- Key-value store state of one Redis server reached through a
connection, for concrete executions (external collaborator model). -/
structure KVState where
  kv : List (String × String)

/-- SET semantics of the server: bind k to v, shadowing any old binding. -/
def kvSet (s : KVState) (k v : String) : KVState :=
  ⟨(k, v) :: s.kv.filter (fun p => ¬ p.1 = k)⟩

/-- GET semantics of the server: the current binding of k, if any. -/
def kvGet (s : KVState) (k : String) : Option String :=
  (s.kv.find? (fun p => p.1 == k)).map (fun p => p.2)

/-- One command execution against a healthy single Redis server:
standard PING, SET and GET semantics of the external collaborator. -/
def kvStep : Step KVState := fun s c =>
  if c.name = "PING" then (.ok (.Status "PONG"), s)
  else if c.name = "SET" then
    match c.args with
    | [k, v] => (.ok .Okay, kvSet s k v)
    | _ => (.error .Protocol, s)
  else if c.name = "GET" then
    match c.args with
    | [k] =>
      match kvGet s k with
      | some v => (.ok (.Data v), s)
      | none => (.ok .Nil, s)
    | _ => (.error .Protocol, s)
  else (.error .Protocol, s)

/-- Oracle under which every open call succeeds. -/
def kvOpen : OpenOracle := ⟨fun _ => none, fun _ => none⟩

/-- Oracle under which opening a connection yields an empty server. -/
def kvConn : ConnOracle KVState :=
  ⟨fun _ => .ok ⟨[]⟩, fun _ => .ok ⟨[]⟩⟩

/-- An initial world with no allocated cells. -/
def w0 : World KVState := ⟨0, fun _ => ⟨[]⟩⟩

/-- The exec_works test of lib.rs: build the facade for a single node,
SET testval to 4 through one handle from get_client, then GET testval
through another handle from get_client, decoded as a String. -/
def roundTrip : Option (RedisResult String) :=
  match Redis.new kvOpen kvConn w0 (RedisConfig.Single "redis://127.0.0.1") with
  | .ok (r, w1) =>
    let (_set, w2) :=
      r.get_client.execUnit kvStep w1 ((cmd "SET").arg ["testval", "4"])
    some (r.get_client.execString kvStep w2 ((cmd "GET").arg ["testval"])).1
  | _ => none

/-- The open error, if any, that RedisConfig::connect meets on a config. -/
def openErrOf (oo : OpenOracle) : RedisConfig → Option RedisError
  | .Single url => oo.clientOpen url
  | .Cluster nodes => oo.clusterOpen nodes

/-- The client RedisConfig::connect builds on the success path: the same
variant, bound to the same address or address list. -/
def matchingClient : RedisConfig → RedisClient
  | .Single url => RedisClient.Single ⟨url⟩
  | .Cluster nodes => RedisClient.Cluster ⟨nodes⟩

/-- get_client is the identity on the handle: same variant, same cell. -/
theorem get_client_eq (c : RedisConnection) : c.get_client = c := by
  cases c <;> rfl

/-- Reading back the key just set yields the value just written. -/
theorem kvGet_kvSet (s : KVState) (k v : String) :
    kvGet (kvSet s k v) k = some v := by
  simp [kvGet, kvSet]

/-- Claim C1: ping issues the PING command via exec and returns a
boolean; it returns true exactly when the reply is Ok of a Status value
equal to PONG, and false on every other reply and on every failed
execution (the Bool return type has no error channel, so failures are
swallowed, never propagated). -/
theorem ping_true_iff_pong {σ : Type} (step : Step σ) (w : World σ)
    (conn : RedisConnection) :
    (conn.ping step w).1 = true ↔
      (conn.exec step w (cmd "PING")).1 = .ok (.Status "PONG") := by
  rcases h : conn.exec step w (cmd "PING") with ⟨r, w1⟩
  cases r with
  | error e => simp [RedisConnection.ping, h]
  | ok v => cases v <;> simp [RedisConnection.ping, h]

/-- Claim C2: whenever the external open call fails on the configured
address or addresses, RedisConfig::connect panics (the unconditional
unwrap) instead of returning the error; its return type PanicOr
RedisClient has no error channel at all. -/
theorem connect_panics_on_open_failure (oo : OpenOracle)
    (cfg : RedisConfig) (e : RedisError) (h : openErrOf oo cfg = some e) :
    cfg.connect oo = .panicked := by
  cases cfg with
  | Single url =>
    simp only [openErrOf] at h
    simp [RedisConfig.connect, Client.open, h]
  | Cluster nodes =>
    simp only [openErrOf] at h
    simp [RedisConfig.connect, ClusterClient.open, h]

/-- Oracle on which every open call fails. -/
def failOpen : OpenOracle := ⟨fun _ => some .Io, fun _ => some .Io⟩

/-- Witness for claim C2 at a concrete failing configuration. -/
theorem connect_panics_on_open_failure_witness :
    RedisConfig.connect failOpen (RedisConfig.Single "bad url") =
      .panicked :=
  connect_panics_on_open_failure failOpen (RedisConfig.Single "bad url")
    .Io rfl

/-- Claim C3: every facade Redis::new constructs stores a client and a
connection of agreeing variants; the pair is set together inside
Redis::connect, the facade fields are never reassigned (no operation
returns a modified facade), and the handle get_client hands out keeps
the agreeing variant. -/
theorem new_variants_agree {σ : Type} (oo : OpenOracle)
    (co : ConnOracle σ) (w : World σ) (cfg : RedisConfig) (r : Redis)
    (w1 : World σ) (h : Redis.new oo co w cfg = .ok (r, w1)) :
    variantsAgree r._client r.connection = true ∧
    variantsAgree r._client r.get_client = true := by
  cases cfg with
  | Single url =>
    cases hc : oo.clientOpen url with
    | some e =>
      simp [Redis.new, Redis.connect, RedisConfig.connect, Client.open,
        hc] at h
    | none =>
      cases hg : co.getAsyncConnection url with
      | error e =>
        simp [Redis.new, Redis.connect, RedisConfig.connect, Client.open,
          hc, hg] at h
      | ok s =>
        simp [Redis.new, Redis.connect, RedisConfig.connect, Client.open,
          hc, hg, World.alloc] at h
        obtain ⟨h1, h2⟩ := h
        subst h1
        simp [variantsAgree, Redis.get_client, RedisConnection.get_client]
  | Cluster nodes =>
    cases hc : oo.clusterOpen nodes with
    | some e =>
      simp [Redis.new, Redis.connect, RedisConfig.connect,
        ClusterClient.open, hc] at h
    | none =>
      cases hg : co.getClusterConnection nodes with
      | error e =>
        simp [Redis.new, Redis.connect, RedisConfig.connect,
          ClusterClient.open, hc, hg] at h
      | ok s =>
        simp [Redis.new, Redis.connect, RedisConfig.connect,
          ClusterClient.open, hc, hg, World.alloc] at h
        obtain ⟨h1, h2⟩ := h
        subst h1
        simp [variantsAgree, Redis.get_client, RedisConnection.get_client]

/-- Witness for claim C3 at a concrete successful construction. -/
theorem new_variants_agree_witness :
    variantsAgree (RedisClient.Single ⟨"redis://127.0.0.1"⟩)
      (RedisConnection.Single 0) = true :=
  (new_variants_agree kvOpen kvConn w0
    (RedisConfig.Single "redis://127.0.0.1")
    ⟨RedisClient.Single ⟨"redis://127.0.0.1"⟩, RedisConnection.Single 0⟩
    ⟨1, fun j => if j = 0 then ⟨[]⟩ else w0.cells j⟩ rfl).1

/-- Claim C4: Redis::get_client returns a handle equal to the facade
connection (same variant, same underlying cell; get_client takes no
World so it cannot open a new network connection), and two handles from
the same facade alias one cell: a SET through one handle is observed by
a GET through the other. -/
theorem get_client_aliases_connection (r : Redis) (w : World KVState)
    (k v : String) :
    r.get_client = r.connection ∧
    r.get_client.cell = r.connection.cell ∧
    (r.get_client.execString kvStep
        (r.get_client.execUnit kvStep w ((cmd "SET").arg [k, v])).2
        ((cmd "GET").arg [k])).1 = .ok v := by
  refine ⟨get_client_eq r.connection, by rw [Redis.get_client, get_client_eq], ?_⟩
  rw [Redis.get_client, get_client_eq]
  cases r.connection with
  | Single con =>
    simp [RedisConnection.execString, RedisConnection.execUnit,
      RedisConnection.exec, World.write, kvStep, cmd, Cmd.arg,
      kvGet_kvSet, fromRedisString]
  | Cluster con =>
    simp [RedisConnection.execString, RedisConnection.execUnit,
      RedisConnection.exec, World.write, kvStep, cmd, Cmd.arg,
      kvGet_kvSet, fromRedisString]

/-- Claim C5: on the success path of the external open calls,
RedisConfig::connect yields the client of the matching variant, bound to
the same one address (Single) or the same address list (Cluster). -/
theorem connect_matches_variant (oo : OpenOracle) (cfg : RedisConfig)
    (h : openErrOf oo cfg = none) :
    cfg.connect oo = .ok (matchingClient cfg) := by
  cases cfg with
  | Single url =>
    simp only [openErrOf] at h
    simp [RedisConfig.connect, Client.open, matchingClient, h]
  | Cluster nodes =>
    simp only [openErrOf] at h
    simp [RedisConfig.connect, ClusterClient.open, matchingClient, h]

/-- Witness for claim C5 at concrete single and cluster configs. -/
theorem connect_matches_variant_witness :
    RedisConfig.connect kvOpen (RedisConfig.Cluster ["a", "b"]) =
      .ok (matchingClient (RedisConfig.Cluster ["a", "b"])) :=
  connect_matches_variant kvOpen (RedisConfig.Cluster ["a", "b"]) rfl

/-- Claim C6: for a single-node config whose address parses (the open
call succeeds) but whose connection opening fails, Redis::new returns
the error as an err result (via the question mark in Redis::connect),
not a panic. -/
theorem new_propagates_connect_error {σ : Type} (oo : OpenOracle)
    (co : ConnOracle σ) (w : World σ) (url : String) (e : RedisError)
    (hp : oo.clientOpen url = none)
    (hc : co.getAsyncConnection url = .error e) :
    Redis.new oo co w (RedisConfig.Single url) = .err e := by
  simp [Redis.new, Redis.connect, RedisConfig.connect, Client.open,
    hp, hc]

/-- Oracle on which opening any connection fails with an Io error. -/
def downConn : ConnOracle KVState :=
  ⟨fun _ => .error .Io, fun _ => .error .Io⟩

/-- Witness for claim C6 at a concrete unreachable single node. -/
theorem new_propagates_connect_error_witness :
    Redis.new kvOpen downConn w0
      (RedisConfig.Single "redis://127.0.0.1") = .err .Io :=
  new_propagates_connect_error kvOpen downConn w0 "redis://127.0.0.1"
    .Io rfl rfl

/-- Claim C7: when the library call inside exec fails, the error is
returned verbatim to the caller (no retry, no remapping), no new cell is
allocated, every other cell is untouched, the failed cell holds exactly
what the library left in it (the glue layer does not invalidate, replace
or mark it), and the handle still references the same cell, so a
subsequent exec is attempted on the same shared connection. -/
theorem exec_error_propagated_state_kept {σ : Type} (step : Step σ)
    (w : World σ) (conn : RedisConnection) (c : Cmd) (e : RedisError)
    (s : σ) (h : step (w.cells conn.cell) c = (.error e, s)) :
    (conn.exec step w c).1 = .error e ∧
    (conn.exec step w c).2.next = w.next ∧
    (conn.exec step w c).2.cells conn.cell = s ∧
    (∀ j, j ≠ conn.cell → (conn.exec step w c).2.cells j = w.cells j) ∧
    conn.get_client = conn := by
  cases conn with
  | Single con =>
    simp only [RedisConnection.cell] at h
    refine ⟨?_, ?_, ?_, ?_, rfl⟩
    · simp [RedisConnection.exec, h]
    · simp [RedisConnection.exec, h, World.write]
    · simp [RedisConnection.exec, RedisConnection.cell, h, World.write]
    · intro j hj
      simp only [RedisConnection.cell] at hj
      simp [RedisConnection.exec, h, World.write, hj]
  | Cluster con =>
    simp only [RedisConnection.cell] at h
    refine ⟨?_, ?_, ?_, ?_, rfl⟩
    · simp [RedisConnection.exec, h]
    · simp [RedisConnection.exec, h, World.write]
    · simp [RedisConnection.exec, RedisConnection.cell, h, World.write]
    · intro j hj
      simp only [RedisConnection.cell] at hj
      simp [RedisConnection.exec, h, World.write, hj]

/-- Step oracle on which every command fails with a transport error. -/
def downStep : Step KVState := fun s _ => (.error .Transport, s)

/-- Witness for claim C7 at a concrete failing execution. -/
theorem exec_error_propagated_state_kept_witness :
    ((RedisConnection.Single 0).exec downStep w0 (cmd "GET")).1 =
      .error .Transport :=
  (exec_error_propagated_state_kept downStep w0 (RedisConnection.Single 0)
    (cmd "GET") .Transport ⟨[]⟩ rfl).1

/-- Claim C8: the concrete round trip of the exec_works test: SET
testval 4 through one get_client handle, then GET testval through
another, decoded as a String, returns 4. -/
theorem set_get_round_trip : roundTrip = some (.ok "4") := by
  rfl

/-- Claim C10: get_client is idempotent up to aliasing: it returns the
very same handle (same variant, same cell), so applying it twice equals
applying it once; it takes no World, so it mutates nothing. -/
theorem get_client_idempotent (c : RedisConnection) :
    c.get_client = c ∧
    c.get_client.cell = c.cell ∧
    c.get_client.get_client = c.get_client := by
  refine ⟨get_client_eq c, ?_, ?_⟩ <;> simp [get_client_eq]

end RedisGlue
